import Mathlib

/-!
Verification development for the mapon-go client library's JSON-to-typed-model
mapping layer.  The Go source is shallowly embedded: every mapping function is
translated into a computable Lean definition over explicit data types.

Conventions of the embedding:
* Go `float64` values are modelled as rationals (the mapping layer only moves
  them around and compares them against thresholds, never performs rounding).
* Go pointers and protobuf explicit-presence fields are modelled as `Option`.
* Go `interface{}` values produced by `encoding/json` are modelled by `GoValue`.
* `timestamppb.Timestamp` values are modelled as Unix seconds (`Int`).
* Endpoint operations are modelled from the point where the JSON envelope has
  been decoded (transport and `json.Unmarshal` of raw bytes are out of scope);
  the envelope error check and all per-item mapping are embedded faithfully.
-/

/-- Model of a Go `interface{}` value as produced by `encoding/json.Unmarshal`:
`nil`, a `float64` number, a string, a boolean, or a composite value
(array/object), plus an `int` case mirroring the type switch in `parseFloat`
(unreachable from JSON decoding but present in the Go source). -/
inductive GoValue where
  | vnil : GoValue
  | vfloat (q : ℚ) : GoValue
  | vint (n : ℤ) : GoValue
  | vstr (s : String) : GoValue
  | vbool (b : Bool) : GoValue
  | vother : GoValue
  deriving DecidableEq

/-- Decimal digit test for ASCII characters. -/
def isDigitChar (c : Char) : Bool :=
  48 ≤ c.toNat && c.toNat ≤ 57

/-- Numeric value of an ASCII digit character. -/
def digitVal (c : Char) : ℕ := c.toNat - 48

/-- Accumulate a list of ASCII digits into a natural number (base 10). -/
def digitsToNat : List Char → ℕ → ℕ
  | [], acc => acc
  | c :: cs, acc => digitsToNat cs (acc * 10 + digitVal c)

/-- Model of Go `strconv.ParseFloat(s, 64)` on its decimal forms:
an optional sign, a decimal mantissa (digits with at most one point, at least
one digit), and an optional decimal exponent, evaluated exactly as a rational
(Go rounds to the nearest float64; the inputs of interest are exact).
Returns `none` exactly when Go returns a non-nil error.  The exotic accepted forms (hexadecimal floats,
"Inf"/"NaN", digit-separating underscores) are outside the modelled subset;
no input considered in this development uses them. -/
def parseGoFloat (s : String) : Option ℚ :=
  let cs := s.data
  let signAndRest : Bool × List Char :=
    match cs with
    | '+' :: r => (false, r)
    | '-' :: r => (true, r)
    | r => (false, r)
  let neg := signAndRest.1
  let afterSign := signAndRest.2
  let ip := afterSign.takeWhile isDigitChar
  let afterInt := afterSign.dropWhile isDigitChar
  let fpAndRest : List Char × List Char :=
    match afterInt with
    | '.' :: r => (r.takeWhile isDigitChar, r.dropWhile isDigitChar)
    | r => ([], r)
  let fp := fpAndRest.1
  let afterFrac :=
    match afterInt with
    | '.' :: _ => fpAndRest.2
    | r => r
  if ip.isEmpty && fp.isEmpty then none
  else
    let mantNat := digitsToNat (ip ++ fp) 0
    let mant : ℤ := if neg then -(mantNat : ℤ) else (mantNat : ℤ)
    match afterFrac with
    | [] => some (mkRat mant (10 ^ fp.length))
    | e :: r =>
      if e = 'e' || e = 'E' then
        let esignAndRest : Bool × List Char :=
          match r with
          | '+' :: r2 => (false, r2)
          | '-' :: r2 => (true, r2)
          | r2 => (false, r2)
        let ed := esignAndRest.2.takeWhile isDigitChar
        let rest := esignAndRest.2.dropWhile isDigitChar
        if ed.isEmpty || !rest.isEmpty then none
        else
          let ex := digitsToNat ed 0
          if esignAndRest.1 then some (mkRat mant (10 ^ (fp.length + ex)))
          else some (mkRat (mant * (10 : ℤ) ^ ex) (10 ^ fp.length))
      else none

/-- Model of Go `strconv.ParseInt(s, 10, 32)`: optional sign, one or more
decimal digits, result within the signed 32-bit range. -/
def parseGoInt32 (s : String) : Option ℤ :=
  let cs := s.data
  let signAndRest : ℤ × List Char :=
    match cs with
    | '+' :: r => (1, r)
    | '-' :: r => (-1, r)
    | r => (1, r)
  let ds := signAndRest.2
  if ds.isEmpty || !(ds.all isDigitChar) then none
  else
    let n : ℤ := signAndRest.1 * (digitsToNat ds 0 : ℤ)
    if -(2 ^ 31) ≤ n ∧ n ≤ 2 ^ 31 - 1 then some n else none

/-- Model of the Go `parseFloat` helper from the unit mapper: coerce a decoded
JSON value to a float, together with a success flag (`true` iff the Go
function returns a nil error).  Every caller in the source discards the error
and uses the numeric result, which is `0` on failure. -/
def parseFloat : GoValue → ℚ × Bool
  | .vnil => (0, true)
  | .vfloat q => (q, true)
  | .vint n => (mkRat n 1, true)
  | .vstr s =>
    match parseGoFloat s with
    | some q => (q, true)
    | none => (0, false)
  | .vbool _ => (0, false)
  | .vother => (0, false)

/-- Numeric coercion used by `mapCanMetricList` and `mapAxisWeightList`:
Go computes `strconv.ParseFloat(fmt.Sprintf("%v", v.Value), 64)` and discards
the error.  For a string, `%v` prints the string itself, so the composition is
`ParseFloat` of the string; for a `float64`, `%v` prints the shortest decimal
that parses back to the same value, so the composition is the identity; `nil`
prints as a non-numeric token and booleans as "true"/"false", both of which
fail to parse, yielding `0`; composite values likewise fail to parse. -/
def canCoerce : GoValue → ℚ
  | .vstr s => (parseGoFloat s).getD 0
  | .vfloat q => q
  | .vint n => mkRat n 1
  | .vnil => 0
  | .vbool _ => 0
  | .vother => 0

/-- Go conversion `int64(f)` of a `float64`: truncation toward zero. -/
def goInt64 (q : ℚ) : ℤ := q.num.tdiv q.den

/-- Leap year test of the proleptic Gregorian calendar (as in Go's time
package). -/
def isLeap (y : ℤ) : Bool :=
  y % 4 = 0 && (y % 100 ≠ 0 || y % 400 = 0)

/-- Number of days in a month of a given year. -/
def daysInMonth (y m : ℤ) : ℤ :=
  if m = 2 then (if isLeap y then 29 else 28)
  else if m = 4 ∨ m = 6 ∨ m = 9 ∨ m = 11 then 30
  else 31

/-- Days since the Unix epoch of a civil date (Howard Hinnant's
days-from-civil algorithm, as used by standard time libraries). -/
def daysFromCivil (y m d : ℤ) : ℤ :=
  let y2 := if m ≤ 2 then y - 1 else y
  let era := (if 0 ≤ y2 then y2 else y2 - 399) / 400
  let yoe := y2 - era * 400
  let mp := if m > 2 then m - 3 else m + 9
  let doy := (153 * mp + 2) / 5 + d - 1
  let doe := yoe * 365 + yoe / 4 - yoe / 100 + doy
  era * 146097 + doe - 719468

/-- Unix seconds of a civil date-time taken in UTC. -/
def civilToUnix (y m d h mi s : ℤ) : ℤ :=
  daysFromCivil y m d * 86400 + h * 3600 + mi * 60 + s

/-- Take exactly `n` ASCII digits from the front of a character list. -/
def takeDigits : ℕ → List Char → Option (ℕ × List Char)
  | 0, cs => some (0, cs)
  | _ + 1, [] => none
  | n + 1, c :: cs =>
    if isDigitChar c then
      match takeDigits n cs with
      | some (m, rest) => some (digitVal c * 10 ^ n + m, rest)
      | none => none
    else none

/-- Take one or two ASCII digits (Go's lenient numeric element used for the
hour in both layouts of interest). -/
def takeDigits12 : List Char → Option (ℕ × List Char)
  | [] => none
  | c :: cs =>
    if isDigitChar c then
      match cs with
      | c2 :: cs2 =>
        if isDigitChar c2 then some (digitVal c * 10 + digitVal c2, cs2)
        else some (digitVal c, cs)
      | [] => some (digitVal c, [])
    else none

/-- Expect a specific character at the front of a character list. -/
def expectChar (c : Char) : List Char → Option (List Char)
  | x :: r => if x = c then some r else none
  | [] => none

/-- Range validation performed by Go's `time.Parse`: month, day (against the
month length), hour, minute and second must be in range. -/
def validCivil (y mo d h mi s : ℤ) : Bool :=
  1 ≤ mo && mo ≤ 12 && 1 ≤ d && d ≤ daysInMonth y mo &&
    0 ≤ h && h < 24 && 0 ≤ mi && mi < 60 && 0 ≤ s && s < 60

/-- Model of Go `time.Parse("2006-01-02 15:04:05", s)`, returning Unix
seconds: a four-digit year, two-digit zero-padded month and day, a space, a
one-or-two-digit hour and two-digit minute and second, with no trailing text;
the bare local time is interpreted as UTC.  Returns `none` exactly when Go
returns a parse error (out-of-range components included). -/
def parseLocalTime (str : String) : Option ℤ :=
  match takeDigits 4 str.data with
  | none => none
  | some (y, r1) =>
    match expectChar '-' r1 with
    | none => none
    | some r2 =>
      match takeDigits 2 r2 with
      | none => none
      | some (mo, r3) =>
        match expectChar '-' r3 with
        | none => none
        | some r4 =>
          match takeDigits 2 r4 with
          | none => none
          | some (d, r5) =>
            match expectChar ' ' r5 with
            | none => none
            | some r6 =>
              match takeDigits12 r6 with
              | none => none
              | some (h, r7) =>
                match expectChar ':' r7 with
                | none => none
                | some r8 =>
                  match takeDigits 2 r8 with
                  | none => none
                  | some (mi, r9) =>
                    match expectChar ':' r9 with
                    | none => none
                    | some r10 =>
                      match takeDigits 2 r10 with
                      | none => none
                      | some (s, r11) =>
                        if r11.isEmpty && validCivil y mo d h mi s then
                          some (civilToUnix y mo d h mi s)
                        else none

/-- Parse the timezone suffix of an RFC 3339 timestamp: the letter Z, or a
signed two-digit-hour, colon, two-digit-minute offset.  Returns the offset in
seconds and the remaining characters. -/
def parseZone : List Char → Option (ℤ × List Char)
  | 'Z' :: r => some (0, r)
  | c :: r =>
    if c = '+' ∨ c = '-' then
      match takeDigits 2 r with
      | none => none
      | some (oh, r1) =>
        match expectChar ':' r1 with
        | none => none
        | some r2 =>
          match takeDigits 2 r2 with
          | none => none
          | some (om, r3) =>
            let total : ℤ := oh * 3600 + om * 60
            some (if c = '-' then -total else total, r3)
    else none
  | [] => none

/-- Drop an optional fractional-second part (a point followed by at least one
digit); Go's parser consumes it after the seconds element even though the
layout carries none, truncating toward the whole second. -/
def dropFraction : List Char → List Char
  | '.' :: r =>
    if (r.takeWhile isDigitChar).isEmpty then '.' :: r
    else r.dropWhile isDigitChar
  | r => r

/-- Model of Go `time.Parse(time.RFC3339, s)`, returning Unix seconds: date
and clock as in the bare layout but separated by the letter T, an optional
fractional second, and a mandatory zone (Z or a signed offset), with no
trailing text.  The offset is subtracted to produce UTC. -/
def parseRFC3339 (str : String) : Option ℤ :=
  match takeDigits 4 str.data with
  | none => none
  | some (y, r1) =>
    match expectChar '-' r1 with
    | none => none
    | some r2 =>
      match takeDigits 2 r2 with
      | none => none
      | some (mo, r3) =>
        match expectChar '-' r3 with
        | none => none
        | some r4 =>
          match takeDigits 2 r4 with
          | none => none
          | some (d, r5) =>
            match expectChar 'T' r5 with
            | none => none
            | some r6 =>
              match takeDigits12 r6 with
              | none => none
              | some (h, r7) =>
                match expectChar ':' r7 with
                | none => none
                | some r8 =>
                  match takeDigits 2 r8 with
                  | none => none
                  | some (mi, r9) =>
                    match expectChar ':' r9 with
                    | none => none
                    | some r10 =>
                      match takeDigits 2 r10 with
                      | none => none
                      | some (s, r11) =>
                        match parseZone (dropFraction r11) with
                        | none => none
                        | some (off, r12) =>
                          if r12.isEmpty && validCivil y mo d h mi s then
                            some (civilToUnix y mo d h mi s - off)
                          else none

/-! Protobuf message model (`maponv1` mirrors the generated Go package
`wayplatform/connect/mapon/v1`).  Fields written by conditional setters are
`Option`s (`some` = setter called, `none` = field left unset); fields written
unconditionally on every path are plain. -/

namespace maponv1

/-- Unit type enumeration with the explicit unrecognized fallback member. -/
inductive UnitType where
  | unspecified | car | truck | trailer | van | bus | tractor | unrecognized
  deriving DecidableEq

/-- Fuel type enumeration with the explicit unrecognized fallback member. -/
inductive FuelType where
  | unspecified | petrol | diesel | lpg | electric | propane | lng | cng
  | ethanol | hydrogen | hybrid | agricultureFuel | unrecognized
  deriving DecidableEq

/-- Movement status enumeration with the explicit unrecognized fallback
member. -/
inductive MovementStatus where
  | unspecified | driving | standing | nodata | nogps | service | unrecognized
  deriving DecidableEq

/-- Route type enumeration with the explicit unrecognized fallback member. -/
inductive RouteType where
  | unspecified | route | stop | unrecognized
  deriving DecidableEq

/-- Geographic location message. -/
structure Location where
  latitude : Option ℚ := none
  longitude : Option ℚ := none
  address : Option String := none
  deriving DecidableEq

/-- One fuel-level entry of the unit state. -/
structure UnitState.FuelEntry where
  type : Option String := none
  metrics : Option String := none
  value : Option ℚ := none
  lastUpdate : Option ℤ := none
  deriving DecidableEq

/-- Per-axle weight reading of the unit state. -/
structure UnitState.AxisWeight where
  weightKg : Option ℚ := none
  time : Option ℤ := none
  deriving DecidableEq

/-- Telemetry snapshot of one unit at one instant. -/
structure UnitState where
  location : Option Location := none
  speedKmh : Option ℤ := none
  directionDeg : Option ℤ := none
  odometerM : Option ℤ := none
  ignitionTotalDurationS : Option ℤ := none
  movementStatus : Option MovementStatus := none
  unrecognizedMovementStatus : Option String := none
  durationS : Option ℤ := none
  startTime : Option ℤ := none
  time : Option ℤ := none
  fuelEntries : Option (List UnitState.FuelEntry) := none
  fuelLevelL : Option ℚ := none
  supplyVoltageV : Option ℚ := none
  supplyVoltageTime : Option ℤ := none
  batteryVoltageV : Option ℚ := none
  batteryVoltageTime : Option ℤ := none
  ignitionState : Option Bool := none
  ignitionTime : Option ℤ := none
  ambientTemperatureC : Option ℚ := none
  ambientTemperatureTime : Option ℤ := none
  debugMessage : Option String := none
  canOdometerTime : Option ℤ := none
  totalFuelUsedLifetimeL : Option ℚ := none
  canFuelTotalTime : Option ℤ := none
  canEngineRpm : Option ℚ := none
  canEngineRpmTime : Option ℤ := none
  canFuelLevelL : Option ℚ := none
  canFuelLevelTime : Option ℤ := none
  canEngineHoursH : Option ℚ := none
  canEngineHoursTime : Option ℤ := none
  canServiceBrakeSwitch : Option Bool := none
  canServiceBrakeSwitchTime : Option ℤ := none
  canParkingBrakeSwitch : Option Bool := none
  canParkingBrakeSwitchTime : Option ℤ := none
  canEngineLoadPercent : Option ℚ := none
  canEngineLoadTime : Option ℤ := none
  grossCombinationWeightKg : Option ℚ := none
  combinationWeightTime : Option ℤ := none
  poweredWeightKg : Option ℚ := none
  poweredWeightTime : Option ℤ := none
  axisWeights : Option (List (ℤ × UnitState.AxisWeight)) := none
  batterySocPercent : Option ℚ := none
  batterySocPercentTime : Option ℤ := none
  batterySocKwh : Option ℚ := none
  batterySocKwhTime : Option ℤ := none
  chargingState : Option Bool := none
  evChargingTime : Option ℤ := none
  evChargerConnected : Option Bool := none
  evChargerConnectedTime : Option ℤ := none
  altitudeM : Option ℚ := none
  altitudeTime : Option ℤ := none
  adblueLevelFraction : Option ℚ := none
  deriving DecidableEq

/-- Tracking device sub-record of a unit. -/
structure Unit.Device where
  deviceId : ℤ := 0
  serialNumber : String := ""
  imei : Option String := none
  sim : Option String := none
  deriving DecidableEq

/-- Average fuel consumption sub-record of a unit. -/
structure Unit.FuelConsumption where
  norm : ℚ := 0
  measurement : Option String := none
  deriving DecidableEq

/-- Fuel tank sub-record of a unit (dynamic per-tank volumes keyed by index). -/
structure Unit.FuelTank where
  totalVolL : Option ℚ := none
  tankVolumesL : Option (List (ℤ × ℚ)) := none
  deriving DecidableEq

/-- CO2 emissions sub-record of the technical details. -/
structure Unit.CO2Emissions where
  value : String := ""
  metrics : String := ""
  deriving DecidableEq

/-- Technical details sub-record of a unit. -/
structure Unit.TechnicalDetails where
  stageClassification : Option String := none
  emissionClass : Option String := none
  grossWeightKg : Option ℤ := none
  makeYear : Option String := none
  makeMonth : Option String := none
  powerPs : Option ℤ := none
  powerKw : Option ℤ := none
  cubicCapacityL : Option ℚ := none
  co2Emissions : Option Unit.CO2Emissions := none
  deriving DecidableEq

/-- Movement state sub-record of a unit. -/
structure Unit.MovementState where
  name : Option String := none
  start : Option ℤ := none
  durationS : ℤ := 0
  deriving DecidableEq

/-- Connected trailer sub-record of a unit. -/
structure Unit.ConnectedTrailer where
  unitId : Option String := none
  type : Option String := none
  location : Option Location := none
  deriving DecidableEq

/-- Object (geofence) the unit is currently inside. -/
structure Unit.ObjectLocation where
  objectId : String := ""
  name : String := ""
  deriving DecidableEq

/-- Saved key/value record of a unit. -/
structure Unit.SavedValue where
  key : String := ""
  value : String := ""
  gmt : Option ℤ := none
  deriving DecidableEq

/-- Relay sub-record of a unit. -/
structure Unit.Relay where
  relayId : ℤ := 0
  relayState : ℤ := 0
  type : String := ""
  title : String := ""
  inverted : ℤ := 0
  controlWhileMoving : ℤ := 0
  enabled : ℤ := 0
  deriving DecidableEq

/-- Driver message (also nested under a unit). -/
structure Driver where
  driverId : ℤ := 0
  name : String := ""
  surname : String := ""
  email : String := ""
  phone : String := ""
  ibuttonValue : String := ""
  tachographId : String := ""
  blocked : Bool := false
  createdAt : Option ℤ := none
  deriving DecidableEq

/-- Reefer (refrigerator) sub-record of a unit. -/
structure Reefer where
  refrigeratorType : Option String := none
  refrigeratorCompartmentCount : Option ℤ := none
  refrigeratorCommunicationType : Option String := none
  deriving DecidableEq

/-- Unit (vehicle/asset) message. -/
structure Unit where
  unitId : ℤ := 0
  companyId : ℤ := 0
  boxId : ℤ := 0
  label : Option String := none
  number : Option String := none
  shortcut : Option String := none
  countryCode : Option String := none
  vehicleTitle : Option String := none
  carRegCertificate : Option String := none
  regCountry : Option String := none
  vin : Option String := none
  type : Option UnitType := none
  unrecognizedType : Option String := none
  icon : Option String := none
  fuelType : Option FuelType := none
  unrecognizedFuelType : Option String := none
  createdAt : Option ℤ := none
  device : Option Unit.Device := none
  avgFuelConsumption : Option Unit.FuelConsumption := none
  fuelTank : Option Unit.FuelTank := none
  technicalDetails : Option Unit.TechnicalDetails := none
  movementState : Option Unit.MovementState := none
  connected : Option Unit.ConnectedTrailer := none
  inObjects : Option (List Unit.ObjectLocation) := none
  savedValues : Option (List Unit.SavedValue) := none
  drivers : Option (List Driver) := none
  relays : Option (List Unit.Relay) := none
  reefer : Option Reefer := none
  state : UnitState := {}
  deriving DecidableEq

/-- Route message: one trip segment or stop, with two state snapshots
(the Go field named End is rendered here as endp, End being reserved). -/
structure Route where
  routeId : ℤ := 0
  unitId : ℤ := 0
  driverId : ℤ := 0
  type : Option RouteType := none
  unrecognizedType : Option String := none
  distanceM : ℤ := 0
  avgSpeedKmh : ℚ := 0
  maxSpeedKmh : ℚ := 0
  polyline : String := ""
  start : UnitState := {}
  endp : UnitState := {}
  deriving DecidableEq

/-- One ignition interval event. -/
structure IgnitionEvent where
  onTime : Option ℤ := none
  offTime : Option ℤ := none
  deriving DecidableEq

/-- Ignition events of one unit. -/
structure UnitIgnitions where
  unitId : ℤ := 0
  ignitions : List IgnitionEvent := []
  deriving DecidableEq

/-- One CAN metric point: a numeric value plus a timestamp. -/
structure CanMetricValue where
  value : ℚ := 0
  time : Option ℤ := none
  deriving DecidableEq

/-- One per-axle weight metric point. -/
structure AxisWeightMetricValue where
  valueKg : ℚ := 0
  axisId : ℤ := 0
  wheelId : ℤ := 0
  time : Option ℤ := none
  deriving DecidableEq

/-- CAN telemetry of one unit over a period. -/
structure UnitCanPeriodData where
  unitId : ℤ := 0
  rpmAverage : List CanMetricValue := []
  rpmMax : List CanMetricValue := []
  fuelLevelPercent : List CanMetricValue := []
  serviceDistanceKm : List CanMetricValue := []
  totalDistanceKm : List CanMetricValue := []
  totalFuelL : List CanMetricValue := []
  totalEngineHours : List CanMetricValue := []
  ambientTemperatureC : List CanMetricValue := []
  weightOnChassisTotalKg : List CanMetricValue := []
  evBatteryRelPercent : Option (List CanMetricValue) := none
  evBatteryAbsKwh : Option (List CanMetricValue) := none
  evCharging : Option (List CanMetricValue) := none
  weightOnAxis : List AxisWeightMetricValue := []
  deriving DecidableEq

/-- One FMS tell-tale indicator value. -/
structure TellTaleValue where
  name : String := ""
  telltaleId : ℤ := 0
  value : ℤ := 0
  valueTitle : String := ""
  time : Option ℤ := none
  deriving DecidableEq

/-- Tell-tale values of one unit. -/
structure UnitTellTaleData where
  unitId : ℤ := 0
  values : List TellTaleValue := []
  deriving DecidableEq

end maponv1

/-- ASCII lower-casing of one character. -/
def toLowerChar (c : Char) : Char :=
  if 65 ≤ c.toNat ∧ c.toNat ≤ 90 then Char.ofNat (c.toNat + 32) else c

/-- ASCII upper-casing of one character. -/
def toUpperChar (c : Char) : Char :=
  if 97 ≤ c.toNat ∧ c.toNat ≤ 122 then Char.ofNat (c.toNat - 32) else c

/-- Model of Go `strings.ToLower` on its ASCII subset (the vendor enum codes
compared against are all ASCII). -/
def goToLower (s : String) : String :=
  String.mk (s.data.map toLowerChar)

/-- Model of Go `strings.ToUpper` on its ASCII subset. -/
def goToUpper (s : String) : String :=
  String.mk (s.data.map toUpperChar)

/-- Model of the Go `mapUnitType` switch on the lower-cased input. -/
def mapUnitType (t : String) : maponv1.UnitType :=
  let l := goToLower t
  if l = "car" then .car
  else if l = "truck" then .truck
  else if l = "trailer" then .trailer
  else if l = "van" then .van
  else if l = "bus" then .bus
  else if l = "tractor" then .tractor
  else .unrecognized

/-- Model of the Go `mapFuelType` switch on the upper-cased input. -/
def mapFuelType (t : String) : maponv1.FuelType :=
  let u := goToUpper t
  if u = "P" then .petrol
  else if u = "D" then .diesel
  else if u = "G" then .lpg
  else if u = "E" then .electric
  else if u = "PROPANE" then .propane
  else if u = "LNG" then .lng
  else if u = "CNG" then .cng
  else if u = "ETHANOL" then .ethanol
  else if u = "HYDROGEN" then .hydrogen
  else if u = "HYBRID" then .hybrid
  else if u = "L" then .agricultureFuel
  else .unrecognized

/-- Model of the Go `mapMovementStatus` switch on the lower-cased input. -/
def mapMovementStatus (s : String) : maponv1.MovementStatus :=
  let l := goToLower s
  if l = "driving" then .driving
  else if l = "standing" then .standing
  else if l = "nodata" then .nodata
  else if l = "nogps" then .nogps
  else if l = "service" then .service
  else .unrecognized

/-- Model of the Go `mapRouteType` switch on the lower-cased input. -/
def mapRouteType (t : String) : maponv1.RouteType :=
  let l := goToLower t
  if l = "route" then .route
  else if l = "stop" then .stop
  else .unrecognized

/-! JSON input model: the internal Go structs the envelope is decoded into.
Pointer fields are `Option`s, `interface{}` fields are `GoValue`s, JSON
objects with dynamic keys are association lists. -/

/-- Envelope error object, common to every endpoint. -/
structure jsonError where
  code : ℤ := 0
  msg : String := ""
  deriving DecidableEq

/-- Structured API error surfaced when the envelope carries an error object
(Go wraps the code and message into the returned error). -/
structure ApiError where
  code : ℤ
  msg : String
  deriving DecidableEq

/-- Debug info sub-object of the unit state JSON. -/
structure jsonDebugInfo where
  msg : String := ""
  data : List (String × GoValue) := []
  lastValues : List GoValue := []
  deriving DecidableEq

/-- State sub-object of the unit JSON. -/
structure jsonUnitStateInfo where
  name : String := ""
  start : String := ""
  duration : ℤ := 0
  debugInfo : Option jsonDebugInfo := none
  deriving DecidableEq

/-- Movement state sub-object of the unit JSON. -/
structure jsonMovementState where
  name : String := ""
  start : String := ""
  duration : ℤ := 0
  deriving DecidableEq

/-- Average fuel consumption sub-object of the unit JSON. -/
structure jsonAvgFuelConsumption where
  norm : ℚ := 0
  measurement : String := ""
  deriving DecidableEq

/-- One fuel entry of the unit JSON. -/
structure jsonFuelItem where
  type : String := ""
  metrics : String := ""
  value : ℚ := 0
  lastUpdate : Option String := none
  deriving DecidableEq

/-- Timestamped float sub-object (gmt + numeric value). -/
structure jsonGmtFloat where
  gmt : String := ""
  value : ℚ := 0
  deriving DecidableEq

/-- Timestamped string sub-object (gmt + string value). -/
structure jsonGmtString where
  gmt : String := ""
  value : String := ""
  deriving DecidableEq

/-- Timestamped dynamic value sub-object (gmt + interface value). -/
structure jsonGmtValue where
  gmt : String := ""
  value : GoValue := .vnil
  deriving DecidableEq

/-- Device sub-object of the unit JSON. -/
structure jsonDevice where
  id : ℤ := 0
  serialNumber : String := ""
  imei : GoValue := .vnil
  sim : String := ""
  deriving DecidableEq

/-- CAN sub-object of the unit JSON. -/
structure jsonCan where
  odom : Option jsonGmtValue := none
  fuelTotal : Option jsonGmtValue := none
  engineRPM : Option jsonGmtValue := none
  canFuel : Option jsonGmtValue := none
  engineHours : Option jsonGmtValue := none
  serviceBrakeSwitch : Option jsonGmtValue := none
  parkingBrakeSwitch : Option jsonGmtValue := none
  engineLoad : Option jsonGmtValue := none
  deriving DecidableEq

/-- Weights sub-object of the unit JSON (per-axle map keyed by axle index
strings). -/
structure jsonWeights where
  axis : List (String × jsonGmtValue) := []
  combinationWeight : Option jsonGmtValue := none
  poweredWeight : Option jsonGmtValue := none
  deriving DecidableEq

/-- EV values sub-object of the unit JSON. -/
structure jsonEvValues where
  canEvBatteryRel : Option jsonGmtValue := none
  canEvBatteryAbs : Option jsonGmtValue := none
  evCharging : Option jsonGmtValue := none
  evChargerConnected : Option jsonGmtValue := none
  deriving DecidableEq

/-- CO2 emissions sub-object of the technical details JSON. -/
structure jsonCO2Emissions where
  value : GoValue := .vnil
  metrics : String := ""
  deriving DecidableEq

/-- Technical details sub-object of the unit JSON. -/
structure jsonTechnicalDetails where
  stageClassification : Option String := none
  emissionClass : Option String := none
  grossWeight : Option ℤ := none
  makeYear : Option String := none
  makeMonth : Option String := none
  powerPS : Option ℤ := none
  powerKW : Option ℤ := none
  cubicCapacity : Option ℚ := none
  co2Emissions : Option jsonCO2Emissions := none
  deriving DecidableEq

/-- Location sub-object of the connected trailer JSON (string-typed
coordinates). -/
structure jsonConnectedLocation where
  lat : String := ""
  lng : String := ""
  deriving DecidableEq

/-- Connected trailer sub-object of the unit JSON. -/
structure jsonConnected where
  unitId : String := ""
  type : String := ""
  location : Option jsonConnectedLocation := none
  deriving DecidableEq

/-- One object reference in the in-objects sub-object. -/
structure jsonObjectRef where
  objectId : String := ""
  name : String := ""
  deriving DecidableEq

/-- In-objects sub-object of the unit JSON. -/
structure jsonInObjects where
  objects : List jsonObjectRef := []
  deriving DecidableEq

/-- One saved key/value record of the unit JSON. -/
structure jsonSavedValue where
  key : String := ""
  value : String := ""
  gmt : String := ""
  deriving DecidableEq

/-- Relay record of the unit JSON. -/
structure jsonRelay where
  relayId : ℤ := 0
  relayState : ℤ := 0
  type : String := ""
  title : String := ""
  inverted : ℤ := 0
  controlWhileMoving : ℤ := 0
  enabled : ℤ := 0
  deriving DecidableEq

/-- Driver record nested in the unit JSON. -/
structure jsonDriverUnit where
  driverId : ℤ := 0
  name : String := ""
  surname : String := ""
  email : String := ""
  phone : String := ""
  ibuttonValue : String := ""
  tachographId : String := ""
  blocked : ℤ := 0
  createdAt : String := ""
  deriving DecidableEq

/-- Reefer record of the unit JSON. -/
structure jsonReefer where
  refrigeratorType : Option String := none
  refrigeratorCompartmentCount : Option ℤ := none
  refrigeratorCommunicationType : Option String := none
  deriving DecidableEq

/-- The unit record of the units endpoint JSON (the full variant, carrying
the extended CAN, drivers, relays and reefer sub-objects; the other source
variant of this struct is a field-for-field subset with identical mapping
code for every shared field). -/
structure jsonUnit where
  unitId : ℤ := 0
  boxId : ℤ := 0
  companyId : ℤ := 0
  countryCode : Option String := none
  label : Option String := none
  number : Option String := none
  shortcut : Option String := none
  vehicleTitle : Option String := none
  carRegCertificate : Option String := none
  regCountry : Option String := none
  vin : Option String := none
  type : Option String := none
  icon : Option String := none
  mileage : ℚ := 0
  speed : Option ℤ := none
  direction : ℤ := 0
  fuelType : Option String := none
  createdAt : String := ""
  lastUpdate : String := ""
  state : jsonUnitStateInfo := {}
  movementState : Option jsonMovementState := none
  lat : ℚ := 0
  lng : ℚ := 0
  ignitionTotalTime : ℤ := 0
  avgFuelConsumption : Option jsonAvgFuelConsumption := none
  fuel : List jsonFuelItem := []
  fuelTank : Option (List (String × GoValue)) := none
  supplyVoltage : Option jsonGmtFloat := none
  batteryVoltage : Option jsonGmtFloat := none
  ignition : Option jsonGmtString := none
  ambientTemp : Option jsonGmtFloat := none
  device : Option jsonDevice := none
  can : Option jsonCan := none
  weights : Option jsonWeights := none
  evValues : Option jsonEvValues := none
  altitude : Option jsonGmtValue := none
  adBlueLevelFraction : GoValue := .vnil
  technicalDetails : Option jsonTechnicalDetails := none
  connected : Option jsonConnected := none
  inObjects : Option jsonInObjects := none
  savedValues : List jsonSavedValue := []
  ioDin : GoValue := .vnil
  drivers : List jsonDriverUnit := []
  relays : List jsonRelay := []
  reefer : Option jsonReefer := none
  temperature : GoValue := .vnil
  humidity : GoValue := .vnil
  tachograph : GoValue := .vnil
  appFields : GoValue := .vnil
  deriving DecidableEq

/-- Data portion of the units endpoint envelope. -/
structure jsonUnitData where
  units : List jsonUnit := []
  deriving DecidableEq

/-- Envelope of the units endpoint. -/
structure jsonUnitResponse where
  data : jsonUnitData := {}
  error : Option jsonError := none
  deriving DecidableEq

/-- Translation of the Go pattern `if p != nil && *p != "" { set }` applied
to every optional string field of the mappers. -/
def setIfNonEmpty (s : Option String) : Option String :=
  match s with
  | some v => if v ≠ "" then some v else none
  | none => none

/-- Pairing of a gmt+value fragment into its destination value and timestamp
fields, as repeated verbatim across the CAN/EV/weights blocks of the unit
mapper: the value is set when the fragment is present with a non-nil dynamic
value (coerced through parseFloat with the error discarded), the timestamp is
set when additionally to the fragment being present its gmt string is
non-empty and parses as RFC 3339. -/
def gmtValueNumber (g : Option jsonGmtValue) : Option ℚ :=
  match g with
  | some x => if x.value ≠ .vnil then some (parseFloat x.value).1 else none
  | none => none

/-- Timestamp component of a gmt+value fragment guarded by a non-nil value
(see gmtValueNumber); used where the Go source nests the gmt check inside the
value check. -/
def gmtValueTime (g : Option jsonGmtValue) : Option ℤ :=
  match g with
  | some x =>
    if x.value ≠ .vnil then
      (if x.gmt ≠ "" then parseRFC3339 x.gmt else none)
    else none
  | none => none

/-- Smallest power of ten the given natural number divides (searched up to
ten to the sixtieth), used to render a rational in plain decimal form. -/
def pow10Multiple (den : ℕ) : Option ℕ :=
  (List.range 61).find? (fun k => 10 ^ k % den = 0)

/-- Plain decimal rendering of a rational whose denominator divides a power
of ten (every float64 decoded from JSON is of this form, its denominator
being a power of two).  Renders the exact decimal expansion with trailing
zeros trimmed; other rationals render as a fraction, a case unreachable from
JSON-decoded values.  Go prints very large or very small magnitudes in
exponent form; that cosmetic difference is not modelled and no claim
inspects such a value. -/
def decimalString (q : ℚ) : String :=
  match pow10Multiple q.den with
  | some 0 => toString q.num
  | some k =>
    let scaled : ℕ := q.num.natAbs * (10 ^ k / q.den)
    let digits := toString scaled
    let digits :=
      if digits.length ≤ k then
        String.mk (List.replicate (k + 1 - digits.length) '0') ++ digits
      else digits
    let ipart := digits.take (digits.length - k)
    let fpart :=
      ((digits.drop (digits.length - k)).data.reverse.dropWhile
        (fun c => c = '0')).reverse
    let core :=
      if fpart.isEmpty then ipart else ipart ++ "." ++ String.mk fpart
    if q.num < 0 then "-" ++ core else core
  | none => toString q.num ++ "/" ++ toString q.den

/-- Model of `fmt.Sprintf` with the v verb on a decoded JSON value, as used
for the device IMEI and the CO2 emissions value: strings print as
themselves, nil as a nil marker, booleans as their lowercase names, numbers
in Go's round-trippable decimal form; composite values print as their
element listing (no claim inspects that case). -/
def goSprintfV : GoValue → String
  | .vnil => "<nil>"
  | .vfloat q => decimalString q
  | .vint n => toString n
  | .vstr s => s
  | .vbool b => if b then "true" else "false"
  | .vother => "[]"

/-! Block-level helpers of `mapJSONUnitToProto`.  The Go function is one long
imperative setter sequence in which every protobuf field is assigned exactly
once; each commented block of the source is rendered as a definition, and the
message is assembled by one record literal per message.  Fragment access of
the form `if j.X != nil { use j.X.Y }` is rendered with `Option.bind`. -/

/-- Value component of a gmt+float fragment (supply voltage, battery voltage,
ambient temperature): the value is set whenever the fragment is present. -/
def gmtFloatValue (g : Option jsonGmtFloat) : Option ℚ :=
  match g with
  | some x => some x.value
  | none => none

/-- Timestamp component of a gmt+float fragment: set when the fragment is
present, its gmt string is non-empty and it parses as RFC 3339. -/
def gmtFloatTime (g : Option jsonGmtFloat) : Option ℤ :=
  match g with
  | some x => if x.gmt ≠ "" then parseRFC3339 x.gmt else none
  | none => none

/-- Timestamp component of a gmt+string fragment (ignition). -/
def gmtStringTime (g : Option jsonGmtString) : Option ℤ :=
  match g with
  | some x => if x.gmt ≠ "" then parseRFC3339 x.gmt else none
  | none => none

/-- Timestamp component of a gmt+value fragment without the non-nil value
guard, as in the altitude block where Go checks the gmt independently of the
value. -/
def gmtTimeOnly (g : Option jsonGmtValue) : Option ℤ :=
  match g with
  | some x => if x.gmt ≠ "" then parseRFC3339 x.gmt else none
  | none => none

/-- Boolean flag derived from a gmt+value fragment by comparing the coerced
number against a threshold, as in the brake-switch blocks (threshold one
half) and the EV charging blocks (threshold zero). -/
def gmtValueFlag (threshold : ℚ) (g : Option jsonGmtValue) : Option Bool :=
  match g with
  | some x =>
    if x.value ≠ .vnil then some ((parseFloat x.value).1 > threshold)
    else none
  | none => none

/-- Ignition state flag: the string value compared against the literal on. -/
def ignitionStateOf (g : Option jsonGmtString) : Option Bool :=
  match g with
  | some ig => some (ig.value = "on")
  | none => none

/-- Movement status enum field of the state block: set only for a non-empty
source name. -/
def movementStatusOf (name : String) : Option maponv1.MovementStatus :=
  if name ≠ "" then some (mapMovementStatus name) else none

/-- Unrecognized movement status side channel: the raw name, kept when the
name is non-empty and maps to the unrecognized member. -/
def unrecognizedMovementStatusOf (name : String) : Option String :=
  if name ≠ "" ∧ mapMovementStatus name = .unrecognized then some name
  else none

/-- Debug message of the state block: set when debug info is present with a
non-empty message. -/
def debugMessageOf (d : Option jsonDebugInfo) : Option String :=
  match d with
  | some di => if di.msg ≠ "" then some di.msg else none
  | none => none

/-- AdBlue level: set when the dynamic value is non-nil, coerced through
parseFloat with the error discarded. -/
def adblueOf (v : GoValue) : Option ℚ :=
  if v ≠ .vnil then some (parseFloat v).1 else none

/-- One fuel entry of the fuel list. -/
def mapFuelEntry (f : jsonFuelItem) : maponv1.UnitState.FuelEntry :=
  { type := if f.type ≠ "" then some f.type else none
    metrics := if f.metrics ≠ "" then some f.metrics else none
    value := some f.value
    lastUpdate :=
      match f.lastUpdate with
      | some lu => if lu ≠ "" then parseRFC3339 lu else none
      | none => none }

/-- Fold over the fuel list accumulating the mapped entries together with
the backward-compatibility fuel level: the first entry with metrics L is
recorded, the getter-with-default comparison against zero mirroring the Go
check of GetFuelLevelL against an unset-or-zero field. -/
def fuelFoldOf (fuel : List jsonFuelItem) :
    List maponv1.UnitState.FuelEntry × Option ℚ :=
  fuel.foldl
    (fun acc f =>
      (acc.1 ++ [mapFuelEntry f],
       if f.metrics = "L" ∧ acc.2.getD 0 = 0 then some f.value else acc.2))
    ([], none)

/-- Per-axle weights of the weights block: Go iterates the axis map, keeps
the keys that parse as 32-bit integers, and maps each fragment to a weight
(set when the dynamic value is non-nil) and a timestamp (set when the gmt is
non-empty and parses); the result is set only when both the source map and
the retained entries are non-empty.  Go map iteration order is unspecified;
the association list fixes one order, which no claim depends on. -/
def axisWeightsOf (w : Option jsonWeights) :
    Option (List (ℤ × maponv1.UnitState.AxisWeight)) :=
  match w with
  | some w0 =>
    if w0.axis.length > 0 then
      let axisList : List (ℤ × maponv1.UnitState.AxisWeight) :=
        w0.axis.foldl
          (fun acc kv =>
            match parseGoInt32 kv.1 with
            | some axisNum =>
              acc ++ [(axisNum,
                { weightKg :=
                    if kv.2.value ≠ .vnil then some (parseFloat kv.2.value).1
                    else none
                  time :=
                    if kv.2.gmt ≠ "" then parseRFC3339 kv.2.gmt else none })]
            | none => acc)
          []
      if axisList.length > 0 then some axisList else none
    else none
  | none => none

/-- State location: latitude and longitude set from the flattened unit
coordinates. -/
def stateLocationOf (lat lng : ℚ) : maponv1.Location :=
  { latitude := some lat, longitude := some lng, address := none }

/-- Unit type field: set only for a non-empty source string. -/
def unitTypeOf (t : Option String) : Option maponv1.UnitType :=
  match t with
  | some ts => if ts ≠ "" then some (mapUnitType ts) else none
  | none => none

/-- Unrecognized unit type side channel: Go re-reads the set field and keeps
the raw string when it mapped to the unrecognized member. -/
def unrecognizedUnitTypeOf (t : Option String) : Option String :=
  match t with
  | some ts =>
    if ts ≠ "" ∧ (unitTypeOf t).getD .unspecified = .unrecognized then some ts
    else none
  | none => none

/-- Fuel type field: set only for a non-empty source string. -/
def fuelTypeOf (t : Option String) : Option maponv1.FuelType :=
  match t with
  | some ts => if ts ≠ "" then some (mapFuelType ts) else none
  | none => none

/-- Unrecognized fuel type side channel. -/
def unrecognizedFuelTypeOf (t : Option String) : Option String :=
  match t with
  | some ts =>
    if ts ≠ "" ∧ mapFuelType ts = .unrecognized then some ts else none
  | none => none

/-- Device block of the unit mapper. -/
def mapUnitDevice (d : Option jsonDevice) : Option maponv1.Unit.Device :=
  match d with
  | some dev0 =>
    let imeiStr := goSprintfV dev0.imei
    some { deviceId := dev0.id
           serialNumber := dev0.serialNumber
           imei := if imeiStr ≠ "" then some imeiStr else none
           sim := if dev0.sim ≠ "" then some dev0.sim else none }
  | none => none

/-- Average fuel consumption block of the unit mapper. -/
def mapUnitAvgFuelConsumption (fc : Option jsonAvgFuelConsumption) :
    Option maponv1.Unit.FuelConsumption :=
  match fc with
  | some fc0 =>
    some { norm := fc0.norm
           measurement :=
             if fc0.measurement ≠ "" then some fc0.measurement else none }
  | none => none

/-- Fuel tank block of the unit mapper: the total volume is the float under
the total_vol key; the per-tank volumes are gathered from the keys with the
fuel_tank_vol_ prefix whose remainder parses as a 32-bit integer and whose
value is a float.  Go map iteration order is unspecified; the association
list fixes one order, which no claim depends on. -/
def mapUnitFuelTank (ft : Option (List (String × GoValue))) :
    Option maponv1.Unit.FuelTank :=
  match ft with
  | some ftMap =>
    let tankVolumes : List (ℤ × ℚ) :=
      ftMap.foldl
        (fun acc kv =>
          if kv.1.startsWith "fuel_tank_vol_" then
            let axisStr := kv.1.drop "fuel_tank_vol_".length
            if axisStr ≠ "" then
              match parseGoInt32 axisStr with
              | some axisNum =>
                match kv.2 with
                | .vfloat vol => acc ++ [(axisNum, vol)]
                | _ => acc
              | none => acc
            else acc
          else acc)
        []
    some { totalVolL :=
             match ftMap.lookup "total_vol" with
             | some (.vfloat tv) => some tv
             | _ => none
           tankVolumesL :=
             if tankVolumes.length > 0 then some tankVolumes else none }
  | none => none

/-- Technical details block of the unit mapper. -/
def mapUnitTechnicalDetails (td : Option jsonTechnicalDetails) :
    Option maponv1.Unit.TechnicalDetails :=
  match td with
  | some td0 =>
    some { stageClassification := td0.stageClassification
           emissionClass := td0.emissionClass
           grossWeightKg := td0.grossWeight
           makeYear := td0.makeYear
           makeMonth := td0.makeMonth
           powerPs := td0.powerPS
           powerKw := td0.powerKW
           cubicCapacityL := td0.cubicCapacity
           co2Emissions :=
             match td0.co2Emissions with
             | some co2 =>
               some { value := goSprintfV co2.value, metrics := co2.metrics }
             | none => none }
  | none => none

/-- Movement state block of the unit mapper. -/
def mapUnitMovementState (ms : Option jsonMovementState) :
    Option maponv1.Unit.MovementState :=
  match ms with
  | some ms0 =>
    some { name := if ms0.name ≠ "" then some ms0.name else none
           start := parseRFC3339 ms0.start
           durationS := ms0.duration }
  | none => none

/-- Connected trailer block of the unit mapper: the string coordinates are
each set only when they parse as floats. -/
def mapUnitConnected (ct : Option jsonConnected) :
    Option maponv1.Unit.ConnectedTrailer :=
  match ct with
  | some ct0 =>
    some { unitId := if ct0.unitId ≠ "" then some ct0.unitId else none
           type := if ct0.type ≠ "" then some ct0.type else none
           location :=
             match ct0.location with
             | some loc0 =>
               some { latitude := parseGoFloat loc0.lat
                      longitude := parseGoFloat loc0.lng
                      address := none }
             | none => none }
  | none => none

/-- In-objects block of the unit mapper: set only when the sub-object is
present with a non-empty object list. -/
def mapUnitInObjects (io0 : Option jsonInObjects) :
    Option (List maponv1.Unit.ObjectLocation) :=
  match io0 with
  | some io1 =>
    if io1.objects.length > 0 then
      some (io1.objects.map (fun obj =>
        { objectId := obj.objectId, name := obj.name }))
    else none
  | none => none

/-- Saved values block of the unit mapper: timestamps use the bare local
layout. -/
def mapUnitSavedValues (svs : List jsonSavedValue) :
    Option (List maponv1.Unit.SavedValue) :=
  if svs.length > 0 then
    some (svs.map (fun sv =>
      { key := sv.key, value := sv.value, gmt := parseLocalTime sv.gmt }))
  else none

/-- Drivers block of the unit mapper (present only in the full source
variant): the blocked integer is normalized to a boolean, created-at uses
RFC 3339. -/
def mapUnitDrivers (ds : List jsonDriverUnit) :
    Option (List maponv1.Driver) :=
  if ds.length > 0 then
    some (ds.map (fun d =>
      { driverId := d.driverId
        name := d.name
        surname := d.surname
        email := d.email
        phone := d.phone
        ibuttonValue := d.ibuttonValue
        tachographId := d.tachographId
        blocked := d.blocked > (0 : ℤ)
        createdAt := parseRFC3339 d.createdAt }))
  else none

/-- Relays block of the unit mapper. -/
def mapUnitRelays (rs : List jsonRelay) : Option (List maponv1.Unit.Relay) :=
  if rs.length > 0 then
    some (rs.map (fun r =>
      { relayId := r.relayId
        relayState := r.relayState
        type := r.type
        title := r.title
        inverted := r.inverted
        controlWhileMoving := r.controlWhileMoving
        enabled := r.enabled }))
  else none

/-- Reefer block of the unit mapper. -/
def mapUnitReefer (rf : Option jsonReefer) : Option maponv1.Reefer :=
  match rf with
  | some rf0 =>
    some { refrigeratorType := rf0.refrigeratorType
           refrigeratorCompartmentCount := rf0.refrigeratorCompartmentCount
           refrigeratorCommunicationType := rf0.refrigeratorCommunicationType }
  | none => none

/-- State construction of the unit mapper: field for field the setter
sequence of the Go source, with the nested-fragment access rendered through
Option.bind and the shared gmt+value patterns through the helpers above. -/
def mapJSONUnitState (j : jsonUnit) : maponv1.UnitState :=
  { location := some (stateLocationOf j.lat j.lng)
    speedKmh := j.speed
    directionDeg := some j.direction
    odometerM := some (goInt64 j.mileage)
    ignitionTotalDurationS := some j.ignitionTotalTime
    movementStatus := movementStatusOf j.state.name
    unrecognizedMovementStatus := unrecognizedMovementStatusOf j.state.name
    durationS := some j.state.duration
    startTime := parseRFC3339 j.state.start
    time := parseRFC3339 j.lastUpdate
    fuelEntries :=
      if j.fuel.length > 0 then some (fuelFoldOf j.fuel).1 else none
    fuelLevelL := (fuelFoldOf j.fuel).2
    supplyVoltageV := gmtFloatValue j.supplyVoltage
    supplyVoltageTime := gmtFloatTime j.supplyVoltage
    batteryVoltageV := gmtFloatValue j.batteryVoltage
    batteryVoltageTime := gmtFloatTime j.batteryVoltage
    ignitionState := ignitionStateOf j.ignition
    ignitionTime := gmtStringTime j.ignition
    ambientTemperatureC := gmtFloatValue j.ambientTemp
    ambientTemperatureTime := gmtFloatTime j.ambientTemp
    debugMessage := debugMessageOf (j.state.debugInfo)
    canOdometerTime := gmtValueTime (j.can.bind jsonCan.odom)
    totalFuelUsedLifetimeL := gmtValueNumber (j.can.bind jsonCan.fuelTotal)
    canFuelTotalTime := gmtValueTime (j.can.bind jsonCan.fuelTotal)
    canEngineRpm := gmtValueNumber (j.can.bind jsonCan.engineRPM)
    canEngineRpmTime := gmtValueTime (j.can.bind jsonCan.engineRPM)
    canFuelLevelL := gmtValueNumber (j.can.bind jsonCan.canFuel)
    canFuelLevelTime := gmtValueTime (j.can.bind jsonCan.canFuel)
    canEngineHoursH := gmtValueNumber (j.can.bind jsonCan.engineHours)
    canEngineHoursTime := gmtValueTime (j.can.bind jsonCan.engineHours)
    canServiceBrakeSwitch :=
      gmtValueFlag (mkRat 1 2) (j.can.bind jsonCan.serviceBrakeSwitch)
    canServiceBrakeSwitchTime :=
      gmtValueTime (j.can.bind jsonCan.serviceBrakeSwitch)
    canParkingBrakeSwitch :=
      gmtValueFlag (mkRat 1 2) (j.can.bind jsonCan.parkingBrakeSwitch)
    canParkingBrakeSwitchTime :=
      gmtValueTime (j.can.bind jsonCan.parkingBrakeSwitch)
    canEngineLoadPercent := gmtValueNumber (j.can.bind jsonCan.engineLoad)
    canEngineLoadTime := gmtValueTime (j.can.bind jsonCan.engineLoad)
    grossCombinationWeightKg :=
      gmtValueNumber (j.weights.bind jsonWeights.combinationWeight)
    combinationWeightTime :=
      gmtValueTime (j.weights.bind jsonWeights.combinationWeight)
    poweredWeightKg :=
      gmtValueNumber (j.weights.bind jsonWeights.poweredWeight)
    poweredWeightTime :=
      gmtValueTime (j.weights.bind jsonWeights.poweredWeight)
    axisWeights := axisWeightsOf j.weights
    batterySocPercent :=
      gmtValueNumber (j.evValues.bind jsonEvValues.canEvBatteryRel)
    batterySocPercentTime :=
      gmtValueTime (j.evValues.bind jsonEvValues.canEvBatteryRel)
    batterySocKwh :=
      gmtValueNumber (j.evValues.bind jsonEvValues.canEvBatteryAbs)
    batterySocKwhTime :=
      gmtValueTime (j.evValues.bind jsonEvValues.canEvBatteryAbs)
    chargingState :=
      gmtValueFlag 0 (j.evValues.bind jsonEvValues.evCharging)
    evChargingTime := gmtValueTime (j.evValues.bind jsonEvValues.evCharging)
    evChargerConnected :=
      gmtValueFlag 0 (j.evValues.bind jsonEvValues.evChargerConnected)
    evChargerConnectedTime :=
      gmtValueTime (j.evValues.bind jsonEvValues.evChargerConnected)
    altitudeM := gmtValueNumber j.altitude
    altitudeTime := gmtTimeOnly j.altitude
    adblueLevelFraction := adblueOf j.adBlueLevelFraction }

/-- Model of `mapJSONUnitToProto`: the pure mapping from one decoded unit
JSON record to the protobuf Unit message, assembled from the block
definitions above. -/
def mapJSONUnitToProto (j : jsonUnit) : maponv1.Unit :=
  { unitId := j.unitId
    companyId := j.companyId
    boxId := j.boxId
    label := setIfNonEmpty j.label
    number := setIfNonEmpty j.number
    shortcut := setIfNonEmpty j.shortcut
    countryCode := setIfNonEmpty j.countryCode
    vehicleTitle := setIfNonEmpty j.vehicleTitle
    carRegCertificate := setIfNonEmpty j.carRegCertificate
    regCountry := setIfNonEmpty j.regCountry
    vin := setIfNonEmpty j.vin
    type := unitTypeOf j.type
    unrecognizedType := unrecognizedUnitTypeOf j.type
    icon := setIfNonEmpty j.icon
    fuelType := fuelTypeOf j.fuelType
    unrecognizedFuelType := unrecognizedFuelTypeOf j.fuelType
    createdAt := parseRFC3339 j.createdAt
    device := mapUnitDevice j.device
    avgFuelConsumption := mapUnitAvgFuelConsumption j.avgFuelConsumption
    fuelTank := mapUnitFuelTank j.fuelTank
    technicalDetails := mapUnitTechnicalDetails j.technicalDetails
    movementState := mapUnitMovementState j.movementState
    connected := mapUnitConnected j.connected
    inObjects := mapUnitInObjects j.inObjects
    savedValues := mapUnitSavedValues j.savedValues
    drivers := mapUnitDrivers j.drivers
    relays := mapUnitRelays j.relays
    reefer := mapUnitReefer j.reefer
    state := mapJSONUnitState j }

/-! Endpoint operations.  Each is modelled from the point where the raw
bytes have been decoded into the endpoint's envelope struct: the Go code
first checks the envelope error object and otherwise maps the data portion
item by item.  Transport failures, non-200 statuses and JSON syntax errors
happen before this point and are out of scope. -/

/-- Body processing of the standalone `ParseUnitsResponse` function: surface
a populated envelope error as a structured API error, otherwise map every
decoded unit in order. -/
def ParseUnitsResponse (body : jsonUnitResponse) :
    Except ApiError (List maponv1.Unit) :=
  match body.error with
  | some e => Except.error { code := e.code, msg := e.msg }
  | none => Except.ok (body.data.units.map mapJSONUnitToProto)

/-- Response struct of the ListUnits endpoint. -/
structure ListUnitsResponse where
  units : List maponv1.Unit := []
  deriving DecidableEq

/-- Body processing of `Client.ListUnits`: identical envelope handling to
ParseUnitsResponse, wrapping the unit list in the response struct. -/
def ListUnits (body : jsonUnitResponse) :
    Except ApiError ListUnitsResponse :=
  match body.error with
  | some e => Except.error { code := e.code, msg := e.msg }
  | none =>
    Except.ok { units := body.data.units.map mapJSONUnitToProto }

/-- CAN sub-object of one route endpoint point. -/
structure jsonRoutePointCan where
  fuelLevelL : ℚ := 0
  odometerM : ℤ := 0
  deriving DecidableEq

/-- One endpoint (start or end) of a route JSON record. -/
structure jsonRoutePoint where
  time : String := ""
  address : String := ""
  lat : ℚ := 0
  lng : ℚ := 0
  can : Option jsonRoutePointCan := none
  deriving DecidableEq

/-- One route JSON record (the Go field named End is rendered as endp). -/
structure jsonRoute where
  routeId : ℤ := 0
  type : String := ""
  distance : ℤ := 0
  avgSpeed : ℚ := 0
  maxSpeed : ℚ := 0
  polyline : String := ""
  driverId : ℤ := 0
  start : jsonRoutePoint := {}
  endp : jsonRoutePoint := {}
  deriving DecidableEq

/-- Routes of one unit in the route endpoint JSON. -/
structure jsonUnitRoutes where
  unitId : ℤ := 0
  routes : List jsonRoute := []
  deriving DecidableEq

/-- Data portion of the route endpoint envelope. -/
structure jsonRouteData where
  units : List jsonUnitRoutes := []
  deriving DecidableEq

/-- Envelope of the route endpoint. -/
structure jsonRouteResponse where
  data : jsonRouteData := {}
  error : Option jsonError := none
  deriving DecidableEq

/-- Model of `mapJSONPointToState`: one route point becomes a unit state
snapshot with location (address included), a timestamp parsed as RFC 3339,
and, when the CAN sub-object is present, the fuel level and the odometer
(converted from kilometres to metres). -/
def mapJSONPointToState (p : jsonRoutePoint) : maponv1.UnitState :=
  { location := some { latitude := some p.lat
                       longitude := some p.lng
                       address := some p.address }
    time := parseRFC3339 p.time
    fuelLevelL :=
      match p.can with
      | some c => some c.fuelLevelL
      | none => none
    odometerM :=
      match p.can with
      | some c => some (c.odometerM * 1000)
      | none => none }

/-- Model of `mapJSONRouteToProto`: the route type is set unconditionally
through mapRouteType, the raw type string is kept as the unrecognized side
channel only when it is non-empty and mapped to the unrecognized member, and
the two endpoint snapshots are mapped independently. -/
def mapJSONRouteToProto (unitID : ℤ) (j : jsonRoute) : maponv1.Route :=
  { routeId := j.routeId
    unitId := unitID
    driverId := j.driverId
    type := some (mapRouteType j.type)
    unrecognizedType :=
      if j.type ≠ "" ∧ mapRouteType j.type = .unrecognized then some j.type
      else none
    distanceM := j.distance
    avgSpeedKmh := j.avgSpeed
    maxSpeedKmh := j.maxSpeed
    polyline := j.polyline
    start := mapJSONPointToState j.start
    endp := mapJSONPointToState j.endp }

/-- Body processing of `Client.ListRoutes`: envelope error check, then a
nested iteration over units and their routes in order. -/
def ListRoutes (body : jsonRouteResponse) :
    Except ApiError (List maponv1.Route) :=
  match body.error with
  | some e => Except.error { code := e.code, msg := e.msg }
  | none =>
    Except.ok (body.data.units.flatMap (fun unitRoute =>
      unitRoute.routes.map (mapJSONRouteToProto unitRoute.unitId)))

/-- One driver record of the driver endpoint JSON. -/
structure jsonDriver where
  id : ℤ := 0
  name : String := ""
  surname : String := ""
  email : String := ""
  phone : String := ""
  ibutton : String := ""
  tacho : String := ""
  blocked : Bool := false
  created : String := ""
  deriving DecidableEq

/-- Data portion of the driver endpoint envelope. -/
structure jsonDriverData where
  drivers : List jsonDriver := []
  deriving DecidableEq

/-- Envelope of the driver endpoint. -/
structure jsonDriverResponse where
  data : jsonDriverData := {}
  error : Option jsonError := none
  deriving DecidableEq

/-- Model of `mapJSONDriverToProto`: every scalar field is copied, and the
created timestamp is parsed in the bare local layout, left unset on parse
failure. -/
def mapJSONDriverToProto (j : jsonDriver) : maponv1.Driver :=
  { driverId := j.id
    name := j.name
    surname := j.surname
    email := j.email
    phone := j.phone
    ibuttonValue := j.ibutton
    tachographId := j.tacho
    blocked := j.blocked
    createdAt := parseLocalTime j.created }

/-- Body processing of `Client.ListDrivers`. -/
def ListDrivers (body : jsonDriverResponse) :
    Except ApiError (List maponv1.Driver) :=
  match body.error with
  | some e => Except.error { code := e.code, msg := e.msg }
  | none => Except.ok (body.data.drivers.map mapJSONDriverToProto)

/-- One ignition interval of the ignitions endpoint JSON (the Go fields On
and Off are rendered as onStr and offStr, on being reserved). -/
structure jsonIgnitionEvent where
  onStr : String := ""
  offStr : String := ""
  deriving DecidableEq

/-- Ignition events of one unit in the ignitions endpoint JSON. -/
structure jsonIgnitionUnit where
  unitId : ℤ := 0
  ignitions : List jsonIgnitionEvent := []
  deriving DecidableEq

/-- Data portion of the ignitions endpoint envelope. -/
structure jsonIgnitionData where
  units : List jsonIgnitionUnit := []
  deriving DecidableEq

/-- Envelope of the ignitions endpoint. -/
structure jsonIgnitionResponse where
  data : jsonIgnitionData := {}
  error : Option jsonError := none
  deriving DecidableEq

/-- Per-event mapping of the ListIgnitions loop body: the on time is parsed
in the bare local layout and set on success; the off time is parsed only for
a non-empty off string and set on success. -/
def mapJSONIgnitionEvent (evt : jsonIgnitionEvent) : maponv1.IgnitionEvent :=
  { onTime := parseLocalTime evt.onStr
    offTime := if evt.offStr ≠ "" then parseLocalTime evt.offStr else none }

/-- Body processing of `Client.ListIgnitions`: envelope error check, then
per-unit and per-event mapping in order. -/
def ListIgnitions (body : jsonIgnitionResponse) :
    Except ApiError (List maponv1.UnitIgnitions) :=
  match body.error with
  | some e => Except.error { code := e.code, msg := e.msg }
  | none =>
    Except.ok (body.data.units.map (fun u =>
      { unitId := u.unitId
        ignitions := u.ignitions.map mapJSONIgnitionEvent }))

/-- One tell-tale value of the tell-tale endpoint JSON. -/
structure jsonTellTaleValue where
  name : String := ""
  telltaleId : ℤ := 0
  value : ℤ := 0
  valueTitle : String := ""
  datetime : String := ""
  deriving DecidableEq

/-- Envelope of the tell-tale endpoint: the data portion is a JSON object
keyed by unit-id strings, modelled as an association list. -/
structure jsonTellTaleResponse where
  data : List (String × List jsonTellTaleValue) := []
  error : Option jsonError := none
  deriving DecidableEq

/-- Per-value mapping of the ListTellTaleValues loop body. -/
def mapJSONTellTaleValue (v : jsonTellTaleValue) : maponv1.TellTaleValue :=
  { name := v.name
    telltaleId := v.telltaleId
    value := v.value
    valueTitle := v.valueTitle
    time := parseRFC3339 v.datetime }

/-- Body processing of `Client.ListTellTaleValues` for a requested unit id:
envelope error check, then the data map is consulted under the decimal
string of the requested id (strconv.FormatInt, rendered as toString); the
entries found there are mapped in order, a missing key yields an empty value
list, and the single returned message always carries the requested id. -/
def ListTellTaleValues (unitID : ℤ) (body : jsonTellTaleResponse) :
    Except ApiError maponv1.UnitTellTaleData :=
  match body.error with
  | some e => Except.error { code := e.code, msg := e.msg }
  | none =>
    let unitIDStr := toString unitID
    let values : List maponv1.TellTaleValue :=
      match body.data.lookup unitIDStr with
      | some list => list.map mapJSONTellTaleValue
      | none => []
    Except.ok { unitId := unitID, values := values }

/-- One CAN metric point of the can-period endpoint JSON (the dynamic value
may be a string or a number). -/
structure jsonCanValue where
  gmt : String := ""
  value : GoValue := .vnil
  deriving DecidableEq

/-- One per-axle weight point of the can-period endpoint JSON. -/
structure jsonAxisWeight where
  gmt : String := ""
  value : GoValue := .vnil
  axis : ℤ := 0
  wheel : ℤ := 0
  deriving DecidableEq

/-- EV sub-object of the can-period endpoint JSON. -/
structure jsonCanPeriodEv where
  canEvBatteryRel : List jsonCanValue := []
  canEvBatteryAbs : List jsonCanValue := []
  evCharging : List jsonCanValue := []
  deriving DecidableEq

/-- One unit of the can-period endpoint JSON. -/
structure jsonCanPeriodUnit where
  unitId : ℤ := 0
  rpmAverage : List jsonCanValue := []
  rpmMax : List jsonCanValue := []
  fuelLevel : List jsonCanValue := []
  serviceDistance : List jsonCanValue := []
  totalDistance : List jsonCanValue := []
  totalFuel : List jsonCanValue := []
  totalEngineHours : List jsonCanValue := []
  ambientTemp : List jsonCanValue := []
  weightOnChassisTotal : List jsonCanValue := []
  weightOnAxis : List jsonAxisWeight := []
  evValues : Option jsonCanPeriodEv := none
  deriving DecidableEq

/-- Data portion of the can-period endpoint envelope. -/
structure jsonCanPeriodData where
  units : List jsonCanPeriodUnit := []
  deriving DecidableEq

/-- Envelope of the can-period endpoint. -/
structure jsonCanPeriodResponse where
  data : jsonCanPeriodData := {}
  error : Option jsonError := none
  deriving DecidableEq

/-- Model of `mapCanMetricList`: every point is kept; its value is coerced
through the Sprintf-then-ParseFloat rule with the error discarded, and its
timestamp is parsed in the bare local layout and set on success. -/
def mapCanMetricList (xs : List jsonCanValue) : List maponv1.CanMetricValue :=
  xs.map (fun v =>
    { value := canCoerce v.value
      time := parseLocalTime v.gmt })

/-- Model of `mapAxisWeightList`: the same coercion and timestamp rule as
mapCanMetricList, together with the axle and wheel indices. -/
def mapAxisWeightList (xs : List jsonAxisWeight) :
    List maponv1.AxisWeightMetricValue :=
  xs.map (fun v =>
    { valueKg := canCoerce v.value
      axisId := v.axis
      wheelId := v.wheel
      time := parseLocalTime v.gmt })

/-- Per-unit mapping of the ListCanPeriodData loop body. -/
def mapCanPeriodUnit (u : jsonCanPeriodUnit) : maponv1.UnitCanPeriodData :=
  { unitId := u.unitId
    rpmAverage := mapCanMetricList u.rpmAverage
    rpmMax := mapCanMetricList u.rpmMax
    fuelLevelPercent := mapCanMetricList u.fuelLevel
    serviceDistanceKm := mapCanMetricList u.serviceDistance
    totalDistanceKm := mapCanMetricList u.totalDistance
    totalFuelL := mapCanMetricList u.totalFuel
    totalEngineHours := mapCanMetricList u.totalEngineHours
    ambientTemperatureC := mapCanMetricList u.ambientTemp
    weightOnChassisTotalKg := mapCanMetricList u.weightOnChassisTotal
    evBatteryRelPercent :=
      match u.evValues with
      | some ev => some (mapCanMetricList ev.canEvBatteryRel)
      | none => none
    evBatteryAbsKwh :=
      match u.evValues with
      | some ev => some (mapCanMetricList ev.canEvBatteryAbs)
      | none => none
    evCharging :=
      match u.evValues with
      | some ev => some (mapCanMetricList ev.evCharging)
      | none => none
    weightOnAxis := mapAxisWeightList u.weightOnAxis }

/-- Body processing of `Client.ListCanPeriodData`: envelope error check,
then per-unit mapping in order. -/
def ListCanPeriodData (body : jsonCanPeriodResponse) :
    Except ApiError (List maponv1.UnitCanPeriodData) :=
  match body.error with
  | some e => Except.error { code := e.code, msg := e.msg }
  | none => Except.ok (body.data.units.map mapCanPeriodUnit)

/-! Helper lemmas shared by the claim theorems. -/

/-- A present timestamp of a gmt+float fragment implies a present value. -/
theorem gmtFloatTime_isSome_imp (g : Option jsonGmtFloat)
    (h : (gmtFloatTime g).isSome = true) : (gmtFloatValue g).isSome = true := by
  cases g with
  | none => simp [gmtFloatTime] at h
  | some x => simp [gmtFloatValue]

/-- A present timestamp of a value-guarded gmt+value fragment implies a
present value. -/
theorem gmtValueTime_isSome_imp (g : Option jsonGmtValue)
    (h : (gmtValueTime g).isSome = true) : (gmtValueNumber g).isSome = true := by
  cases g with
  | none => simp [gmtValueTime] at h
  | some x =>
    simp only [gmtValueTime] at h
    by_cases hv : x.value = .vnil
    · simp [hv] at h
    · simp [gmtValueNumber, hv]

/-- The optional-string guard maps an absent or empty source to an absent
destination. -/
theorem setIfNonEmpty_none (s : Option String)
    (h : s = none ∨ s = some "") : setIfNonEmpty s = none := by
  rcases h with h | h <;> simp [setIfNonEmpty, h]

/-- C9: feeding the ignition mapper the decoded body with one unit (id 1)
and one ignition interval with on 2021-01-01 10:00:00 and off
2021-01-01 10:05:00 and a null error yields exactly one unit record with
unit id 1 holding exactly one event whose on time is 2021-01-01T10:00:00Z
and whose off time is 2021-01-01T10:05:00Z: the bare local timestamps are
interpreted as UTC, as the RFC 3339 parses of the corresponding Zulu strings
confirm. -/
theorem ignition_scenario_utc :
    ListIgnitions
        { data := { units := [{ unitId := 1,
                                ignitions := [{ onStr := "2021-01-01 10:00:00",
                                                offStr := "2021-01-01 10:05:00" }] }] }
          error := none } =
      Except.ok [{ unitId := 1,
                   ignitions := [{ onTime := some 1609495200,
                                   offTime := some 1609495500 }] }] ∧
    parseRFC3339 "2021-01-01T10:00:00Z" = some 1609495200 ∧
    parseRFC3339 "2021-01-01T10:05:00Z" = some 1609495500 :=
  ⟨rfl, rfl, rfl⟩

/-- C1: for every decoded units-endpoint body whose envelope carries a
populated error object, both ParseUnitsResponse and ListUnits surface a
structured API error with that error's numeric code and message and return
no domain records, whatever well-formed entries the data portion holds. -/
theorem errorShortCircuit_units (body : jsonUnitResponse) (e : jsonError)
    (h : body.error = some e) :
    ParseUnitsResponse body = Except.error { code := e.code, msg := e.msg } ∧
    ListUnits body = Except.error { code := e.code, msg := e.msg } := by
  constructor <;> simp [ParseUnitsResponse, ListUnits, h]

/-- Concrete units-endpoint body carrying both a populated error object and
a well-formed data entry. -/
def c1Body : jsonUnitResponse :=
  { data := { units := [{ unitId := 7, label := some "Truck 7" }] }
    error := some { code := 1003, msg := "Invalid API key" } }

/-- Witness for C1 at a body whose data portion also decodes. -/
theorem errorShortCircuit_units_witness :
    ParseUnitsResponse c1Body =
      Except.error { code := 1003, msg := "Invalid API key" } ∧
    ListUnits c1Body =
      Except.error { code := 1003, msg := "Invalid API key" } :=
  errorShortCircuit_units c1Body { code := 1003, msg := "Invalid API key" } rfl

/-- Concrete unit whose supply-voltage fragment carries a value but an empty
gmt string. -/
def c2Unit : jsonUnit :=
  { unitId := 1, supplyVoltage := some { gmt := "", value := 12 } }

/-- C2 counterexample: the unit mapper can produce a supply-voltage value
with no supply-voltage timestamp, so the claimed value-iff-timestamp pairing
fails. -/
theorem supplyVoltage_value_without_time_cex :
    ((mapJSONUnitToProto c2Unit).state.supplyVoltageV).isSome = true ∧
    ((mapJSONUnitToProto c2Unit).state.supplyVoltageTime).isSome = false :=
  ⟨rfl, rfl⟩

/-- C2 amended: in the state produced by mapJSONUnitToProto a present
timestamp implies a present value for supply voltage, battery voltage,
ambient temperature, CAN fuel total, engine RPM, engine hours and the two EV
battery fields; the converse direction fails (a value may be present with an
empty or malformed gmt, as the counterexample shows), and altitude and
per-axle weights are set independently of their timestamps. -/
theorem value_time_pairing_amended (j : jsonUnit) :
    ((mapJSONUnitToProto j).state.supplyVoltageTime.isSome = true →
      (mapJSONUnitToProto j).state.supplyVoltageV.isSome = true) ∧
    ((mapJSONUnitToProto j).state.batteryVoltageTime.isSome = true →
      (mapJSONUnitToProto j).state.batteryVoltageV.isSome = true) ∧
    ((mapJSONUnitToProto j).state.ambientTemperatureTime.isSome = true →
      (mapJSONUnitToProto j).state.ambientTemperatureC.isSome = true) ∧
    ((mapJSONUnitToProto j).state.canFuelTotalTime.isSome = true →
      (mapJSONUnitToProto j).state.totalFuelUsedLifetimeL.isSome = true) ∧
    ((mapJSONUnitToProto j).state.canEngineRpmTime.isSome = true →
      (mapJSONUnitToProto j).state.canEngineRpm.isSome = true) ∧
    ((mapJSONUnitToProto j).state.canEngineHoursTime.isSome = true →
      (mapJSONUnitToProto j).state.canEngineHoursH.isSome = true) ∧
    ((mapJSONUnitToProto j).state.batterySocPercentTime.isSome = true →
      (mapJSONUnitToProto j).state.batterySocPercent.isSome = true) ∧
    ((mapJSONUnitToProto j).state.batterySocKwhTime.isSome = true →
      (mapJSONUnitToProto j).state.batterySocKwh.isSome = true) := by
  simp only [mapJSONUnitToProto, mapJSONUnitState]
  exact ⟨gmtFloatTime_isSome_imp _, gmtFloatTime_isSome_imp _,
    gmtFloatTime_isSome_imp _, gmtValueTime_isSome_imp _,
    gmtValueTime_isSome_imp _, gmtValueTime_isSome_imp _,
    gmtValueTime_isSome_imp _, gmtValueTime_isSome_imp _⟩

/-- Concrete unit with a fully timestamped supply-voltage fragment. -/
def c2PairedUnit : jsonUnit :=
  { unitId := 2,
    supplyVoltage := some { gmt := "2021-01-01T10:00:00Z", value := 12 } }

/-- Witness for the amended C2 theorem at a concrete unit whose
supply-voltage timestamp is present. -/
theorem value_time_pairing_amended_witness :
    ((mapJSONUnitToProto c2PairedUnit).state.supplyVoltageV).isSome = true :=
  (value_time_pairing_amended c2PairedUnit).1 (by decide)

/-- A lower-cased string outside the known unit-type set maps to the
unrecognized member. -/
theorem mapUnitType_not_known (s : String)
    (h : goToLower s ∉ ["car", "truck", "trailer", "van", "bus", "tractor"]) :
    mapUnitType s = .unrecognized := by
  simp only [List.mem_cons, List.not_mem_nil, or_false, not_or] at h
  obtain ⟨h1, h2, h3, h4, h5, h6⟩ := h
  simp [mapUnitType, h1, h2, h3, h4, h5, h6]

/-- An upper-cased string outside the known fuel-type set maps to the
unrecognized member. -/
theorem mapFuelType_not_known (s : String)
    (h : goToUpper s ∉ ["P", "D", "G", "E", "PROPANE", "LNG", "CNG",
      "ETHANOL", "HYDROGEN", "HYBRID", "L"]) :
    mapFuelType s = .unrecognized := by
  simp only [List.mem_cons, List.not_mem_nil, or_false, not_or] at h
  obtain ⟨h1, h2, h3, h4, h5, h6, h7, h8, h9, h10, h11⟩ := h
  simp [mapFuelType, h1, h2, h3, h4, h5, h6, h7, h8, h9, h10, h11]

/-- A lower-cased string outside the known movement-status set maps to the
unrecognized member. -/
theorem mapMovementStatus_not_known (s : String)
    (h : goToLower s ∉ ["driving", "standing", "nodata", "nogps", "service"]) :
    mapMovementStatus s = .unrecognized := by
  simp only [List.mem_cons, List.not_mem_nil, or_false, not_or] at h
  obtain ⟨h1, h2, h3, h4, h5⟩ := h
  simp [mapMovementStatus, h1, h2, h3, h4, h5]

/-- A lower-cased string outside the known route-type set maps to the
unrecognized member. -/
theorem mapRouteType_not_known (s : String)
    (h : goToLower s ∉ ["route", "stop"]) :
    mapRouteType s = .unrecognized := by
  simp only [List.mem_cons, List.not_mem_nil, or_false, not_or] at h
  obtain ⟨h1, h2⟩ := h
  simp [mapRouteType, h1, h2]

/-- Concrete route record whose type string is empty. -/
def c3Route : jsonRoute :=
  { routeId := 5, type := "" }

/-- C3 counterexample: the route mapper sets the type field unconditionally,
so a route with an empty type string gets the type set to the unrecognized
member (with no raw-string sibling) instead of being left unset. -/
theorem routeType_empty_set_unrecognized_cex :
    (mapJSONRouteToProto 1 c3Route).type = some maponv1.RouteType.unrecognized ∧
    (mapJSONRouteToProto 1 c3Route).unrecognizedType = none :=
  ⟨rfl, rfl⟩

/-- C3 amended: an empty or absent source string leaves the unit type, fuel
type and movement status fields entirely unset, but the route mapper sets
its type unconditionally, so an empty route type string yields a type set to
the unrecognized member with no raw-string sibling. -/
theorem enum_empty_unset_amended (j : jsonUnit) (u : ℤ) (r : jsonRoute) :
    (j.type = none ∨ j.type = some "" → (mapJSONUnitToProto j).type = none) ∧
    (j.fuelType = none ∨ j.fuelType = some "" →
      (mapJSONUnitToProto j).fuelType = none) ∧
    (j.state.name = "" →
      (mapJSONUnitToProto j).state.movementStatus = none ∧
      (mapJSONUnitToProto j).state.unrecognizedMovementStatus = none) ∧
    (r.type = "" →
      (mapJSONRouteToProto u r).type = some maponv1.RouteType.unrecognized ∧
      (mapJSONRouteToProto u r).unrecognizedType = none) := by
  refine ⟨?_, ?_, ?_, ?_⟩
  · rintro (h | h) <;> simp [mapJSONUnitToProto, unitTypeOf, h]
  · rintro (h | h) <;> simp [mapJSONUnitToProto, fuelTypeOf, h]
  · intro h
    constructor <;>
      simp [mapJSONUnitToProto, mapJSONUnitState, movementStatusOf,
        unrecognizedMovementStatusOf, h]
  · intro h
    refine ⟨?_, ?_⟩
    · simp only [mapJSONRouteToProto, h]
      decide
    · simp [mapJSONRouteToProto, h]

/-- Concrete unit with an empty type string, an absent fuel type and an
empty state name. -/
def c3Unit : jsonUnit :=
  { unitId := 9, type := some "", fuelType := none, state := { name := "" } }

/-- Witness for the amended C3 theorem at concrete empty-string inputs. -/
theorem enum_empty_unset_amended_witness :
    (mapJSONUnitToProto c3Unit).type = none ∧
    (mapJSONUnitToProto c3Unit).fuelType = none ∧
    (mapJSONUnitToProto c3Unit).state.movementStatus = none ∧
    (mapJSONRouteToProto 2 c3Route).type = some maponv1.RouteType.unrecognized :=
  ⟨(enum_empty_unset_amended c3Unit 2 c3Route).1 (Or.inr rfl),
   (enum_empty_unset_amended c3Unit 2 c3Route).2.1 (Or.inl rfl),
   ((enum_empty_unset_amended c3Unit 2 c3Route).2.2.1 rfl).1,
   ((enum_empty_unset_amended c3Unit 2 c3Route).2.2.2 rfl).1⟩

/-- C4: for each of the four enum-bearing mappers, any non-empty input
string outside the known set yields the unrecognized enum member together
with the exact raw string in the sibling field of the containing record, and
known strings map case-insensitively for unit type, movement status and
route type and via upper-casing for fuel type (sample evaluations). -/
theorem enum_unrecognized_fallback (j : jsonUnit) (u : ℤ) (r : jsonRoute)
    (s f m : String)
    (hjs : j.type = some s) (hs : s ≠ "")
    (hsk : goToLower s ∉ ["car", "truck", "trailer", "van", "bus", "tractor"])
    (hjf : j.fuelType = some f) (hf : f ≠ "")
    (hfk : goToUpper f ∉ ["P", "D", "G", "E", "PROPANE", "LNG", "CNG",
      "ETHANOL", "HYDROGEN", "HYBRID", "L"])
    (hm : j.state.name = m) (hm0 : m ≠ "")
    (hmk : goToLower m ∉ ["driving", "standing", "nodata", "nogps", "service"])
    (ht0 : r.type ≠ "")
    (htk : goToLower r.type ∉ ["route", "stop"]) :
    (mapJSONUnitToProto j).type = some maponv1.UnitType.unrecognized ∧
    (mapJSONUnitToProto j).unrecognizedType = some s ∧
    (mapJSONUnitToProto j).fuelType = some maponv1.FuelType.unrecognized ∧
    (mapJSONUnitToProto j).unrecognizedFuelType = some f ∧
    (mapJSONUnitToProto j).state.movementStatus =
      some maponv1.MovementStatus.unrecognized ∧
    (mapJSONUnitToProto j).state.unrecognizedMovementStatus = some m ∧
    (mapJSONRouteToProto u r).type = some maponv1.RouteType.unrecognized ∧
    (mapJSONRouteToProto u r).unrecognizedType = some r.type ∧
    mapUnitType "TRUCK" = .truck ∧
    mapMovementStatus "Driving" = .driving ∧
    mapFuelType "d" = .diesel ∧
    mapRouteType "Stop" = .stop := by
  have hut := mapUnitType_not_known s hsk
  have hft := mapFuelType_not_known f hfk
  have hms := mapMovementStatus_not_known m hmk
  have hrt := mapRouteType_not_known r.type htk
  refine ⟨?_, ?_, ?_, ?_, ?_, ?_, ?_, ?_, by decide, by decide, by decide,
    by decide⟩
  · simp [mapJSONUnitToProto, unitTypeOf, hjs, hs, hut]
  · simp [mapJSONUnitToProto, unrecognizedUnitTypeOf, unitTypeOf, hjs, hs, hut]
  · simp [mapJSONUnitToProto, fuelTypeOf, hjf, hf, hft]
  · simp [mapJSONUnitToProto, unrecognizedFuelTypeOf, hjf, hf, hft]
  · simp [mapJSONUnitToProto, mapJSONUnitState, movementStatusOf, hm, hm0, hms]
  · simp [mapJSONUnitToProto, mapJSONUnitState, unrecognizedMovementStatusOf,
      hm, hm0, hms]
  · simp [mapJSONRouteToProto, hrt]
  · simp [mapJSONRouteToProto, ht0, hrt]

/-- Concrete unit with unknown type, fuel type and state name strings. -/
def c4Unit : jsonUnit :=
  { unitId := 11, type := some "hovercraft", fuelType := some "plutonium",
    state := { name := "flying" } }

/-- Concrete route with an unknown type string. -/
def c4Route : jsonRoute :=
  { routeId := 12, type := "teleport" }

/-- Witness for C4 at concrete unknown strings. -/
theorem enum_unrecognized_fallback_witness :
    (mapJSONUnitToProto c4Unit).type = some maponv1.UnitType.unrecognized ∧
    (mapJSONUnitToProto c4Unit).unrecognizedType = some "hovercraft" ∧
    (mapJSONUnitToProto c4Unit).fuelType = some maponv1.FuelType.unrecognized ∧
    (mapJSONUnitToProto c4Unit).unrecognizedFuelType = some "plutonium" ∧
    (mapJSONUnitToProto c4Unit).state.movementStatus =
      some maponv1.MovementStatus.unrecognized ∧
    (mapJSONUnitToProto c4Unit).state.unrecognizedMovementStatus =
      some "flying" ∧
    (mapJSONRouteToProto 3 c4Route).type =
      some maponv1.RouteType.unrecognized ∧
    (mapJSONRouteToProto 3 c4Route).unrecognizedType = some "teleport" := by
  have h := enum_unrecognized_fallback c4Unit 3 c4Route "hovercraft"
    "plutonium" "flying" rfl (by decide) (by decide) rfl (by decide)
    (by decide) rfl (by decide) (by decide) (by decide) (by decide)
  exact ⟨h.1, h.2.1, h.2.2.1, h.2.2.2.1, h.2.2.2.2.1, h.2.2.2.2.2.1,
    h.2.2.2.2.2.2.1, h.2.2.2.2.2.2.2.1⟩

/-- C5: the flexible numeric coercion treats the string and number JSON
encodings of the same value identically (both through the unit mapper's
parseFloat and through the can-metric coercion, shown at the spec's 12.5
example and at the string 1500 of the spec's second scenario), a failed
numeric parse coerces to zero in both, and the mapping never fails: the
can-metric list mapper is total and length-preserving and the can-period
operation succeeds on every error-free body. -/
theorem flexible_value_coercion :
    parseFloat (GoValue.vstr "12.5") = parseFloat (GoValue.vfloat (mkRat 25 2)) ∧
    (∀ g : String,
      mapCanMetricList [{ gmt := g, value := GoValue.vstr "12.5" }] =
        mapCanMetricList [{ gmt := g, value := GoValue.vfloat (mkRat 25 2) }]) ∧
    canCoerce (GoValue.vstr "1500") = 1500 ∧
    (∀ s : String, parseGoFloat s = none →
      (parseFloat (GoValue.vstr s)).1 = 0 ∧ canCoerce (GoValue.vstr s) = 0) ∧
    (∀ xs : List jsonCanValue, (mapCanMetricList xs).length = xs.length) ∧
    (∀ body : jsonCanPeriodResponse, body.error = none →
      ∃ us, ListCanPeriodData body = Except.ok us) := by
  refine ⟨by decide, ?_, by decide, ?_, ?_, ?_⟩
  · intro g
    have h12 : canCoerce (GoValue.vstr "12.5") =
        canCoerce (GoValue.vfloat (mkRat 25 2)) := by decide
    simp [mapCanMetricList, h12]
  · intro s h
    constructor
    · simp [parseFloat, h]
    · simp [canCoerce, h]
  · intro xs
    simp [mapCanMetricList]
  · intro body h
    exact ⟨body.data.units.map mapCanPeriodUnit, by simp [ListCanPeriodData, h]⟩

/-- Witness for C5 at a failing input and a concrete metric list. -/
theorem flexible_value_coercion_witness :
    (parseFloat (GoValue.vstr "abc")).1 = 0 ∧
    canCoerce (GoValue.vstr "abc") = 0 ∧
    mapCanMetricList
        [{ gmt := "2021-01-01 00:00:00", value := GoValue.vstr "12.5" }] =
      mapCanMetricList
        [{ gmt := "2021-01-01 00:00:00", value := GoValue.vfloat (mkRat 25 2) }] :=
  ⟨(flexible_value_coercion.2.2.2.1 "abc" (by decide)).1,
   (flexible_value_coercion.2.2.2.1 "abc" (by decide)).2,
   flexible_value_coercion.2.1 "2021-01-01 00:00:00"⟩

/-- Concrete unit whose EV-charging fragment carries the numeric value three
tenths. -/
def c6Unit : jsonUnit :=
  { unitId := 3
    evValues := some
      { evCharging := some { gmt := "", value := GoValue.vfloat (mkRat 3 10) } } }

/-- C6 counterexample: the EV charging flag is derived with threshold zero,
not one half: at value three tenths the mapper yields true although the
claimed rule (greater than one half) demands false. -/
theorem ev_charging_threshold_cex :
    (mapJSONUnitToProto c6Unit).state.chargingState = some true ∧
    ¬ (mkRat 3 10 > mkRat 1 2) :=
  ⟨by decide, by decide⟩

/-- C6 amended: the service and parking brake switches are derived by the
greater-than-one-half rule, while the EV charging and EV charger connected
flags are derived by the strictly-greater-than-zero rule. -/
theorem can_flag_thresholds_amended (j : jsonUnit) (c : jsonCan)
    (ev : jsonEvValues) (sb pb ch cc : jsonGmtValue)
    (hc : j.can = some c) (hev : j.evValues = some ev)
    (hsb : c.serviceBrakeSwitch = some sb) (hsbv : sb.value ≠ .vnil)
    (hpb : c.parkingBrakeSwitch = some pb) (hpbv : pb.value ≠ .vnil)
    (hch : ev.evCharging = some ch) (hchv : ch.value ≠ .vnil)
    (hcc : ev.evChargerConnected = some cc) (hccv : cc.value ≠ .vnil) :
    (mapJSONUnitToProto j).state.canServiceBrakeSwitch =
      some (decide ((parseFloat sb.value).1 > mkRat 1 2)) ∧
    (mapJSONUnitToProto j).state.canParkingBrakeSwitch =
      some (decide ((parseFloat pb.value).1 > mkRat 1 2)) ∧
    (mapJSONUnitToProto j).state.chargingState =
      some (decide ((parseFloat ch.value).1 > 0)) ∧
    (mapJSONUnitToProto j).state.evChargerConnected =
      some (decide ((parseFloat cc.value).1 > 0)) := by
  simp [mapJSONUnitToProto, mapJSONUnitState, gmtValueFlag, Option.bind,
    hc, hev, hsb, hsbv, hpb, hpbv, hch, hchv, hcc, hccv]

/-- Concrete unit with all four boolean-like CAN/EV fragments populated. -/
def c6AmendedUnit : jsonUnit :=
  { unitId := 4,
    can := some
      { serviceBrakeSwitch := some { gmt := "", value := GoValue.vfloat 1 }
        parkingBrakeSwitch := some { gmt := "", value := GoValue.vfloat 0 } }
    evValues := some
      { evCharging := some { gmt := "", value := GoValue.vstr "0.3" }
        evChargerConnected := some { gmt := "", value := GoValue.vfloat 0 } } }

/-- Witness for the amended C6 theorem at concrete fragment values. -/
theorem can_flag_thresholds_amended_witness :
    (mapJSONUnitToProto c6AmendedUnit).state.canServiceBrakeSwitch =
      some (decide ((parseFloat (GoValue.vfloat 1)).1 > mkRat 1 2)) ∧
    (mapJSONUnitToProto c6AmendedUnit).state.canParkingBrakeSwitch =
      some (decide ((parseFloat (GoValue.vfloat 0)).1 > mkRat 1 2)) ∧
    (mapJSONUnitToProto c6AmendedUnit).state.chargingState =
      some (decide ((parseFloat (GoValue.vstr "0.3")).1 > 0)) ∧
    (mapJSONUnitToProto c6AmendedUnit).state.evChargerConnected =
      some (decide ((parseFloat (GoValue.vfloat 0)).1 > 0)) :=
  can_flag_thresholds_amended c6AmendedUnit
    { serviceBrakeSwitch := some { gmt := "", value := GoValue.vfloat 1 }
      parkingBrakeSwitch := some { gmt := "", value := GoValue.vfloat 0 } }
    { evCharging := some { gmt := "", value := GoValue.vstr "0.3" }
      evChargerConnected := some { gmt := "", value := GoValue.vfloat 0 } }
    { gmt := "", value := GoValue.vfloat 1 }
    { gmt := "", value := GoValue.vfloat 0 }
    { gmt := "", value := GoValue.vstr "0.3" }
    { gmt := "", value := GoValue.vfloat 0 }
    rfl rfl rfl (by decide) rfl (by decide) rfl (by decide) rfl (by decide)

/-- C7: a timestamp string that fails its documented layout leaves the
destination timestamp unset in every embedded mapper (ignition on and off
times, driver creation, unit creation, unit state time, route point time,
can-metric time), and per-item mapping never fails a batch: every error-free
ignitions body maps to a success carrying one output record per input
unit. -/
theorem timestamp_parse_failure_soft :
    (∀ evt : jsonIgnitionEvent, parseLocalTime evt.onStr = none →
      (mapJSONIgnitionEvent evt).onTime = none) ∧
    (∀ evt : jsonIgnitionEvent, parseLocalTime evt.offStr = none →
      (mapJSONIgnitionEvent evt).offTime = none) ∧
    (∀ d : jsonDriver, parseLocalTime d.created = none →
      (mapJSONDriverToProto d).createdAt = none) ∧
    (∀ j : jsonUnit, parseRFC3339 j.createdAt = none →
      (mapJSONUnitToProto j).createdAt = none) ∧
    (∀ j : jsonUnit, parseRFC3339 j.lastUpdate = none →
      (mapJSONUnitToProto j).state.time = none) ∧
    (∀ p : jsonRoutePoint, parseRFC3339 p.time = none →
      (mapJSONPointToState p).time = none) ∧
    (∀ v : jsonCanValue, parseLocalTime v.gmt = none →
      mapCanMetricList [v] = [{ value := canCoerce v.value, time := none }]) ∧
    (∀ body : jsonIgnitionResponse, body.error = none →
      ∃ us, ListIgnitions body = Except.ok us ∧
        us.length = body.data.units.length) := by
  refine ⟨?_, ?_, ?_, ?_, ?_, ?_, ?_, ?_⟩
  · intro evt h
    simp [mapJSONIgnitionEvent, h]
  · intro evt h
    by_cases he : evt.offStr = "" <;> simp [mapJSONIgnitionEvent, he, h]
  · intro d h
    simp [mapJSONDriverToProto, h]
  · intro j h
    simp [mapJSONUnitToProto, h]
  · intro j h
    simp [mapJSONUnitToProto, mapJSONUnitState, h]
  · intro p h
    simp [mapJSONPointToState, h]
  · intro v h
    simp [mapCanMetricList, h]
  · intro body h
    refine ⟨body.data.units.map (fun u =>
      { unitId := u.unitId
        ignitions := u.ignitions.map mapJSONIgnitionEvent }), ?_, ?_⟩
    · simp [ListIgnitions, h]
    · simp [ListIgnitions, h]

/-- Witness for C7 at concrete malformed timestamps. -/
theorem timestamp_parse_failure_soft_witness :
    (mapJSONIgnitionEvent { onStr := "not-a-time", offStr := "bad" }).onTime =
      none ∧
    (mapJSONIgnitionEvent { onStr := "not-a-time", offStr := "bad" }).offTime =
      none ∧
    (mapJSONDriverToProto { id := 1, created := "2016-13-45 99:99:99" }).createdAt =
      none :=
  ⟨timestamp_parse_failure_soft.1
     { onStr := "not-a-time", offStr := "bad" } (by decide),
   timestamp_parse_failure_soft.2.1
     { onStr := "not-a-time", offStr := "bad" } (by decide),
   timestamp_parse_failure_soft.2.2.1
     { id := 1, created := "2016-13-45 99:99:99" } (by decide)⟩

/-- C8: each optional string field of the unit mapper maps an absent pointer
or an empty-string input to an absent output field, never to a present empty
string. -/
theorem optional_string_omission (j : jsonUnit) :
    (j.label = none ∨ j.label = some "" →
      (mapJSONUnitToProto j).label = none) ∧
    (j.number = none ∨ j.number = some "" →
      (mapJSONUnitToProto j).number = none) ∧
    (j.shortcut = none ∨ j.shortcut = some "" →
      (mapJSONUnitToProto j).shortcut = none) ∧
    (j.countryCode = none ∨ j.countryCode = some "" →
      (mapJSONUnitToProto j).countryCode = none) ∧
    (j.vehicleTitle = none ∨ j.vehicleTitle = some "" →
      (mapJSONUnitToProto j).vehicleTitle = none) ∧
    (j.carRegCertificate = none ∨ j.carRegCertificate = some "" →
      (mapJSONUnitToProto j).carRegCertificate = none) ∧
    (j.regCountry = none ∨ j.regCountry = some "" →
      (mapJSONUnitToProto j).regCountry = none) ∧
    (j.vin = none ∨ j.vin = some "" → (mapJSONUnitToProto j).vin = none) ∧
    (j.icon = none ∨ j.icon = some "" →
      (mapJSONUnitToProto j).icon = none) := by
  refine ⟨?_, ?_, ?_, ?_, ?_, ?_, ?_, ?_, ?_⟩ <;>
    exact fun h => setIfNonEmpty_none _ h

/-- Concrete unit mixing absent and empty-string optional fields. -/
def c8Unit : jsonUnit :=
  { unitId := 8, label := none, number := some "", shortcut := none,
    countryCode := some "", vehicleTitle := none,
    carRegCertificate := some "", regCountry := none, vin := some "",
    icon := none }

/-- Witness for C8 at a unit mixing absent and empty-string inputs. -/
theorem optional_string_omission_witness :
    (mapJSONUnitToProto c8Unit).label = none ∧
    (mapJSONUnitToProto c8Unit).number = none ∧
    (mapJSONUnitToProto c8Unit).shortcut = none ∧
    (mapJSONUnitToProto c8Unit).countryCode = none ∧
    (mapJSONUnitToProto c8Unit).vehicleTitle = none ∧
    (mapJSONUnitToProto c8Unit).carRegCertificate = none ∧
    (mapJSONUnitToProto c8Unit).regCountry = none ∧
    (mapJSONUnitToProto c8Unit).vin = none ∧
    (mapJSONUnitToProto c8Unit).icon = none :=
  ⟨(optional_string_omission c8Unit).1 (Or.inl rfl),
   (optional_string_omission c8Unit).2.1 (Or.inr rfl),
   (optional_string_omission c8Unit).2.2.1 (Or.inl rfl),
   (optional_string_omission c8Unit).2.2.2.1 (Or.inr rfl),
   (optional_string_omission c8Unit).2.2.2.2.1 (Or.inl rfl),
   (optional_string_omission c8Unit).2.2.2.2.2.1 (Or.inr rfl),
   (optional_string_omission c8Unit).2.2.2.2.2.2.1 (Or.inl rfl),
   (optional_string_omission c8Unit).2.2.2.2.2.2.2.1 (Or.inr rfl),
   (optional_string_omission c8Unit).2.2.2.2.2.2.2.2 (Or.inl rfl)⟩

/-- C10: on every error-free tell-tale body the operation succeeds with
exactly one message carrying the requested unit id; when the data map has no
entry under the decimal string of that id the value list is empty and the
call still succeeds; and the result depends only on the entry under the
requested key, so entries under any other unit's key are ignored. -/
theorem telltale_requested_unit (uid : ℤ) (body : jsonTellTaleResponse)
    (h : body.error = none) :
    (∃ d, ListTellTaleValues uid body = Except.ok d ∧ d.unitId = uid) ∧
    (body.data.lookup (toString uid) = none →
      ListTellTaleValues uid body =
        Except.ok { unitId := uid, values := [] }) ∧
    (∀ body2 : jsonTellTaleResponse, body2.error = none →
      body2.data.lookup (toString uid) = body.data.lookup (toString uid) →
      ListTellTaleValues uid body2 = ListTellTaleValues uid body) := by
  refine ⟨?_, ?_, ?_⟩
  · simp only [ListTellTaleValues, h]
    exact ⟨_, rfl, rfl⟩
  · intro h2
    simp [ListTellTaleValues, h, h2]
  · intro body2 h2 heq
    simp [ListTellTaleValues, h, h2, heq]

/-- Concrete tell-tale body carrying only another unit's entries. -/
def c10Body : jsonTellTaleResponse :=
  { data := [("7", [{ name := "BRAKE", telltaleId := 1, value := 2,
                      valueTitle := "warning",
                      datetime := "2021-01-01T10:00:00Z" }])]
    error := none }

/-- Witness for C10: requesting unit 42 against a body keyed only under
unit 7 succeeds with the requested id and an empty value list. -/
theorem telltale_requested_unit_witness :
    ListTellTaleValues 42 c10Body =
      Except.ok { unitId := 42, values := [] } :=
  (telltale_requested_unit 42 c10Body rfl).2.1 (by decide)
